import Mathlib

/-!
Verification of the dcai metadata-crosswalk scripts.

The Python sources are shallowly embedded: JSON dictionaries become Lean
structures whose `Option` fields model optional keys; numeric payloads that
the scripts only format and re-parse (Python `float`/`str` round-trips
exactly on `repr` output) are modelled as rationals; text that the scripts
inspect with `in`, `endswith`, `split` and the two regular expressions of
`extract_crs_from_wkt2` is modelled as `String`, with the scans implemented
character by character below.
-/

/-- Character-list version of Python `pat in s` (substring containment),
specialised to a non-empty pattern.  `startsWithCharList l p` checks that
`p` is an initial segment of `l`. -/
def startsWithCharList : List Char → List Char → Bool
  | _, [] => true
  | [], _ :: _ => false
  | c :: cs, p :: ps => c == p && startsWithCharList cs ps

/-- Scan for the leftmost position where the pattern starts. -/
def containsCharList : List Char → List Char → Bool
  | [], p => p.isEmpty
  | c :: cs, p => startsWithCharList (c :: cs) p || containsCharList cs p

/-- Python `pat in s`. -/
def containsSub (s pat : String) : Bool :=
  containsCharList s.data pat.data

/-- Python `s.endswith(suf)`. -/
def strEndsWith (s suf : String) : Bool :=
  decide (suf.data.length ≤ s.data.length)
    && (s.data.drop (s.data.length - suf.data.length) == suf.data)

theorem strData_append (a b : String) : (a ++ b).data = a.data ++ b.data := by
  cases a; cases b; rfl

/-! ## Bounding boxes (C1)

`stac_to_geocroissant.py` lines 191-200 turn a STAC bbox
`[west, south, east, north]` into the GeoShape box string
`f"{bbox[1]} {bbox[0]} {bbox[3]} {bbox[2]}"`; `geocroissant_to_stac.py`
lines 21-24 split that string, bind `south, west, north, east` (a Python
unpack that raises unless exactly four numbers are present) and rebuild
`[west, south, east, north]`.  The whitespace-separated numeric tokens of
the box string are modelled as a `List ℚ`. -/

/-- Function `stac_to_geocroissant`, spatial-coverage section: the GeoShape box is
emitted only when `bbox and len(bbox) >= 4`. -/
def stacBboxToGeoShapeBox (bbox : List ℚ) : Option (List ℚ) :=
  if 4 ≤ bbox.length then
    some [bbox.getD 1 0, bbox.getD 0 0, bbox.getD 3 0, bbox.getD 2 0]
  else
    none

/-- Function `geocroissant_to_stac`, box-string parse: exactly four coordinates are
unpacked as `south, west, north, east` (any other arity raises, modelled as
`none`) and re-exported as the STAC bbox `[west, south, east, north]`. -/
def geoShapeBoxToStacBbox (box : List ℚ) : Option (List ℚ) :=
  match box with
  | [s, w, n, e] => some [w, s, e, n]
  | _ => none

/-! ## SDO band-axis inference (C2)

`sdo_converter.py`, `_generate_field_definitions`, lines 142-152. -/

/-- Band count inferred from an array shape: for a 3-dimensional shape the
script checks `dims[0] < dims[1] and dims[0] < dims[2]`, then
`dims[2] < dims[0] and dims[2] < dims[1]`, and otherwise keeps the default
`num_bands = 1`; every non-3-dimensional shape keeps the default. -/
def sdoNumBands (shape : List Nat) : Nat :=
  match shape with
  | [d0, d1, d2] =>
    if d0 < d1 ∧ d0 < d2 then d0
    else if d2 < d0 ∧ d2 < d1 then d2
    else 1
  | _ => 1

/-! ## STAC asset band names (C5)

`stac_to_geocroissant.py` lines 277-281: the band-name list of a
`geocr:BandConfiguration` takes `band["name"]` when present and
`f"Band{i+1}"` otherwise, in enumeration order. -/

/-- One element of a STAC asset's `bands` array; only the optional `name`
key is inspected by the converter. -/
structure StacBandInfo where
  name : Option String
  deriving DecidableEq, Repr

/-- The `geocr:bandNamesList` as built by the loop in lines 277-281. -/
def stacBandNamesList (bands : List StacBandInfo) : List String :=
  bands.enum.map fun p =>
    match p.2.name with
    | some n => n
    | none => "Band" ++ toString (p.1 + 1)


/-! ## WKT polygon rings (C10) -/

/-- Lines 280-281 of `geocroissant_converter.py`: `if coords and
coords[0] != coords[-1]: coords.append(coords[0])`. -/
def closeRing (coords : List (ℚ × ℚ)) : List (ℚ × ℚ) :=
  match coords.head?, coords.getLast? with
  | some c0, some cl => if c0 ≠ cl then coords ++ [c0] else coords
  | _, _ => coords

/-- Function `convert_polygon_to_wkt` of `geocroissant_converter.py`: each point
contributes the pair `(Longitude, Latitude)` (missing keys default to `0`),
and the first pair is appended when the ring is not already closed.  The
WKT text is the comma-join of the `f"{lon} {lat}"` tokens, so the ring is
modelled as its list of coordinate pairs. -/
def convert_polygon_to_wkt (points : List (Option ℚ × Option ℚ)) :
    List (ℚ × ℚ) :=
  closeRing (points.map fun p => (p.1.getD 0, p.2.getD 0))

/-- Line 75 of `geocroissant_to_geodcat.py`: the WKT polygon derived from a
bounding box repeats the first corner. -/
def geodcatBboxRing (south west north east : ℚ) : List (ℚ × ℚ) :=
  [(west, south), (east, south), (east, north), (west, north), (west, south)]


/-! ## CRS extraction from WKT2 text (C7)

`stac_to_geocroissant.py`, `extract_crs_from_wkt2`, lines 19-47.  The two
regular expressions are `UTM[^\d]*(\d+)` (case-insensitive search) and
`AUTHORITY\["EPSG","(\d+)"\]`; both are implemented below as leftmost-match
character scans. -/

/-- Maximal leading run of decimal digits (greedy `\d+`). -/
def digitRun : List Char → List Char
  | [] => []
  | c :: cs => if c.isDigit then c :: digitRun cs else []

/-- Skip non-digits and return the first digit run, if any
(`[^\d]*(\d+)` after a fixed position). -/
def firstDigitRun : List Char → Option (List Char)
  | [] => none
  | c :: cs => if c.isDigit then some (c :: digitRun cs) else firstDigitRun cs

/-- Case-insensitive check that the list starts with `UTM`. -/
def utmHere : List Char → Bool
  | a :: b :: c :: _ => a.toUpper == 'U' && b.toUpper == 'T' && c.toUpper == 'M'
  | _ => false

/-- Leftmost match of `UTM[^\d]*(\d+)` with `re.IGNORECASE`: at each
position where `UTM` starts, the capture is the first digit run after it;
a `UTM` with no later digit does not match and the scan continues. -/
def utmZoneScan : List Char → Option (List Char)
  | [] => none
  | c :: cs =>
    if utmHere (c :: cs) then
      match firstDigitRun (cs.drop 2) with
      | some run => some run
      | none => utmZoneScan cs
    else utmZoneScan cs

/-- The literal part of `AUTHORITY\["EPSG","(\d+)"\]`. -/
def epsgPat : List Char := "AUTHORITY[\"EPSG\",\"".data

/-- Leftmost match of `AUTHORITY\["EPSG","(\d+)"\]`: the literal prefix,
then a non-empty digit run, then `"]`. -/
def epsgAuthorityScan : List Char → Option (List Char)
  | [] => none
  | c :: cs =>
    if startsWithCharList (c :: cs) epsgPat then
      let rest := (c :: cs).drop epsgPat.length
      let run := digitRun rest
      if !run.isEmpty && startsWithCharList (rest.drop run.length) ['\"', ']'] then
        some run
      else epsgAuthorityScan cs
    else epsgAuthorityScan cs

/-- The `"PROJCS" in wkt2_string or "PROJECTION" in wkt2_string` test. -/
def hasProjKeyword (wkt2_string : String) : Bool :=
  containsSub wkt2_string "PROJCS" || containsSub wkt2_string "PROJECTION"

/-- The EPSG code captured by the `AUTHORITY` regex, as a string. -/
def epsgAuthorityCode (wkt2_string : String) : Option String :=
  (epsgAuthorityScan wkt2_string.data).map List.asString

/-- The projected-CRS branch (lines 25-36): Albers, then UTM with an
optional zone number, then the generic custom label.  Every path of that
branch returns a label. -/
def projectedLabel (wkt2_string : String) : String :=
  if containsSub wkt2_string "Albers" then
    "Custom Albers Equal Area projection"
  else if containsSub wkt2_string "UTM" then
    match utmZoneScan wkt2_string.data with
    | some run => "UTM Zone " ++ run.asString
    | none => "UTM projection"
  else
    "Custom projection (see proj:wkt2)"

/-- The geographic branch (lines 38-47): the `AUTHORITY ["EPSG", code]`
capture is returned as `EPSG:code` unless the code is one of the unit
codes 9122/9001. -/
def epsgBranch (wkt2_string : String) : Option String :=
  match epsgAuthorityCode wkt2_string with
  | some code =>
    if code ≠ "9122" ∧ code ≠ "9001" then some ("EPSG:" ++ code) else none
  | none => none

/-- Function `extract_crs_from_wkt2`: empty input yields `None`; a projected-CRS
keyword (`PROJCS`/`PROJECTION`) selects the named-projection labels;
otherwise the EPSG authority capture decides the result. -/
def extract_crs_from_wkt2 (wkt2_string : String) : Option String :=
  if wkt2_string = "" then none
  else if hasProjKeyword wkt2_string then some (projectedLabel wkt2_string)
  else epsgBranch wkt2_string


/-! ## Encoding-format inference (C8) -/

/-- Lines 122-130 of `ceda.py`: extension table used by
`cloud_product_to_geocroissant` for each product URL. -/
def cedaEncodingFormat (product_url : String) : String :=
  if strEndsWith product_url ".json" then "application/json"
  else if strEndsWith product_url ".nc" || strEndsWith product_url ".netcdf" then
    "application/netcdf"
  else if strEndsWith product_url ".zarr" then "application/zarr"
  else "application/octet-stream"

/-- Function `determine_encoding_format` of `geocroissant_converter.py`, lines
315-332 (the `url_type` and `subtype` parameters are accepted and
ignored, as in the source). -/
def determine_encoding_format (url _url_type _subtype : String) : String :=
  if strEndsWith url ".tif" || strEndsWith url ".tiff" then "image/tiff"
  else if strEndsWith url ".jpg" || strEndsWith url ".jpeg" then "image/jpeg"
  else if strEndsWith url ".json" then "application/json"
  else if strEndsWith url ".xml" then "application/xml"
  else if strEndsWith url ".hdf" || strEndsWith url ".h5" then "application/x-hdf"
  else if strEndsWith url ".nc" then "application/x-netcdf"
  else if containsSub url "s3credentials" then "application/octet-stream"
  else "application/octet-stream"


/-! ## Common helpers for the JSON embeddings -/

/-- Python truthiness of an optional string (`None` and `""` are falsy). -/
def isTruthy (o : Option String) : Bool :=
  match o with
  | some s => s != ""
  | none => false

/-- Python `x or default` on an optional string. -/
def orFalsy (o : Option String) (d : String) : String :=
  match o with
  | some s => if s = "" then d else s
  | none => d

/-- Python `s.split("T")[0]`. -/
def splitT (s : String) : String :=
  (s.data.takeWhile fun c => c != 'T').asString

/-- Python f-string rendering of a possibly-`None` value. -/
def pyStrOfOpt (o : Option String) : String := o.getD "None"

/-- Lexicographic order on character lists. -/
def charListLt : List Char → List Char → Bool
  | [], [] => false
  | [], _ :: _ => true
  | _ :: _, [] => false
  | a :: as, b :: bs => if a < b then true else if b < a then false else charListLt as bs

/-- Chronological order of two ISO-8601 UTC timestamps written in the same
format, which coincides with lexicographic order on their text. -/
def isoBefore (a b : String) : Bool := charListLt a.data b.data

/-- Function `sanitize_name` in `stac_to_geocroissant.py`: every character outside
`[a-zA-Z0-9_\-]` is replaced by `-`. -/
def sanitize_name (name : String) : String :=
  (name.data.map fun c =>
    if ('a' ≤ c && c ≤ 'z') || ('A' ≤ c && c ≤ 'Z') || ('0' ≤ c && c ≤ '9')
        || c == '_' || c == '-' then c else '-').asString

/-- The warning channel of the converters (the STAC converter's only
warning is the missing-checksum message of lines 262-264; no other code
path reports anything). -/
inductive WarningCondition
  | missingChecksum (assetKey : String)
  deriving DecidableEq, Repr

/-! ## STAC asset distribution entries (C3)

`stac_to_geocroissant.py` lines 240-294. -/

/-- The keys of one STAC asset that the converter reads.  Field names
stand for the JSON keys `href`, `type`, `title`, `description`,
`checksum:multihash`, `file:checksum`, `checksum:md5`, `bands`. -/
structure StacAsset where
  href : Option String
  type : Option String
  title : Option String
  description : Option String
  checksumMultihash : Option String
  fileChecksum : Option String
  checksumMd5 : Option String
  bands : Option (List StacBandInfo)
  deriving DecidableEq, Repr

/-- A produced `cr:FileObject`; `Option` fields model JSON keys that may
be absent from the emitted dictionary. -/
structure CrFileObject where
  atId : Option String
  name : Option String
  description : Option String
  contentUrl : Option String
  encodingFormat : Option String
  sha256 : Option String
  md5 : Option String
  bandConfiguration : Option (Nat × List String)
  deriving DecidableEq, Repr

/-- Lines 241-294 of `stac_to_geocroissant.py` for one `(key, asset)`
pair: `sha256` from `checksum:multihash` or else `file:checksum`, `md5`
from `checksum:md5`; when neither checksum key was set, the placeholder
sentinel is stored under `sha256` and the warning is printed.  The band
configuration pairs `geocr:totalBands` with `geocr:bandNamesList`. -/
def stacAssetToFileObject (key : String) (asset : StacAsset) :
    CrFileObject × List WarningCondition :=
  let sha0 : Option String :=
    match asset.checksumMultihash with
    | some h => some h
    | none => asset.fileChecksum
  let md5v := asset.checksumMd5
  let shaWarn :=
    match sha0, md5v with
    | none, none =>
      (some "PLACEHOLDER-CHECKSUM-REQUIRED", [WarningCondition.missingChecksum key])
    | _, _ => (sha0, ([] : List WarningCondition))
  let bandCfg :=
    match asset.bands with
    | some bs => if 0 < bs.length then some (bs.length, stacBandNamesList bs) else none
    | none => none
  ({ atId := some key
     name := some key
     description := some (asset.description.getD (asset.title.getD ""))
     contentUrl := asset.href
     encodingFormat := some (asset.type.getD "application/octet-stream")
     sha256 := shaWarn.1
     md5 := md5v
     bandConfiguration := bandCfg }, shaWarn.2)

/-- Python `s.replace('/', '-')`. -/
def replaceSlashWithDash (s : String) : String :=
  (s.data.map fun c => if c == '/' then '-' else c).asString

/-- The asset id hard-coded in `gee-geocr.py`. -/
def geeAssetId : String := "COPERNICUS/S2/20170430T190351_20170430T190351_T10SEG"

/-- Lines 225-234 of `gee-geocr.py`: the `distribution` list of the GEE
conversion.  The single FileObject literal carries no `sha256` or `md5`
key, and the script has no warning channel. -/
def geeDistribution (asset_id : String) : List CrFileObject :=
  [{ atId := some ("sentinel2-bands-" ++ replaceSlashWithDash asset_id)
     name := some ("Sentinel-2 Bands for " ++ asset_id)
     description := some ("Downloadable Sentinel-2 spectral bands for " ++ asset_id)
     contentUrl := some ("https://earthengine.googleapis.com/v1alpha/projects/earthengine-public/assets/" ++ asset_id)
     encodingFormat := some "application/json"
     sha256 := none
     md5 := none
     bandConfiguration := none }]

/-! ## Temporal coverage of a STAC item (C4)

`stac_to_geocroissant.py` lines 205-216: for a STAC item the converter
reads `properties.start_datetime` / `end_datetime` / `datetime` and emits
`f"{start_dt}/{end_dt}"` whenever both bounds are truthy, else the bare
instant.  The slash-joined string is modelled by the `range` constructor
(ISO timestamps contain no `/`, so the join is injective). -/

/-- The emitted `temporalCoverage` value. -/
inductive StacTemporalCoverage
  | instant (t : String)
  | range (start stop : String)
  deriving DecidableEq, Repr

/-- The item branch of the temporal-coverage section, together with every
warning that section reports (there is no validation code, so the list is
always empty). -/
def itemTemporalCoverage (start_datetime end_datetime datetime_val : Option String) :
    Option StacTemporalCoverage × List WarningCondition :=
  if isTruthy start_datetime && isTruthy end_datetime then
    (some (.range (start_datetime.getD "") (end_datetime.getD "")), [])
  else if isTruthy datetime_val then
    (some (.instant (datetime_val.getD "")), [])
  else
    (none, [])

/-! ## Collection citeAs and datePublished (C6)

`stac_to_geocroissant.py` lines 62-70, 126-137 and 221-234, collection
branch.  `datetime.utcnow()` is passed in explicitly as the run clock. -/

/-- The collection-document keys read by the embedded fragment: `id`,
`title`, `sci:citation`, and `extent.temporal.interval[0]`. -/
structure StacCollectionDoc where
  id : Option String
  title : Option String
  sciCitation : Option String
  temporalInterval : Option (Option String × Option String)
  deriving DecidableEq, Repr

/-- The values of `datetime.utcnow()` that the converter reads. -/
structure RunClock where
  year : Nat
  date : String
  deriving DecidableEq, Repr

/-- Line 68: `sanitize_name(stac_dict.get("title", dataset_id or "UnnamedDataset"))`. -/
def stacCollectionName (doc : StacCollectionDoc) : String :=
  sanitize_name (doc.title.getD (orFalsy doc.id "UnnamedDataset"))

/-- Lines 127-137: the `citeAs` template embeds `datetime.utcnow().year`
unless `sci:citation` overrides it. -/
def stacCollectionCiteAs (doc : StacCollectionDoc) (clock : RunClock) : String :=
  match doc.sciCitation with
  | some c => c
  | none =>
    let collection_name := doc.title.getD (stacCollectionName doc)
    "@misc\x7b" ++ pyStrOfOpt doc.id ++ ", title=\x7b" ++ collection_name ++
      "\x7d, year=\x7b" ++ toString clock.year ++ "\x7d\x7d"

/-- Lines 221-234: `datePublished` comes from the temporal start when one
is present and otherwise falls back to `datetime.utcnow().isoformat().split("T")[0]`. -/
def stacCollectionDatePublished (doc : StacCollectionDoc) (clock : RunClock) : String :=
  match doc.temporalInterval with
  | some (start, _) =>
    if isTruthy start then splitT (start.getD "") else clock.date
  | none => clock.date

/-! ## Distribution lists with FileSets (C9) -/

/-- One entry of a produced `distribution` array, FileObject or FileSet;
`Option` fields model keys that may be absent. -/
structure DistEntry where
  atType : String
  atId : Option String
  name : Option String
  description : Option String
  contentUrl : Option String
  encodingFormat : Option String
  includes : Option String
  containedIn : Option String
  sha256 : Option String
  deriving DecidableEq, Repr

/-- Lines 303-324 of `l4s.py`: the hand-written distribution of the
Landslide4sense record. -/
def l4sDistribution : List DistEntry :=
  [{ atType := "cr:FileObject"
     atId := some "data_repo"
     name := some "data_repo"
     description := some "Landslide4sense dataset directory containing HDF5 files"
     contentUrl := some "./Landslide4sense"
     encodingFormat := some "local_directory"
     includes := none
     containedIn := none
     sha256 := some "placeholder_checksum_for_directory" },
   { atType := "cr:FileSet"
     atId := some "h5-files"
     name := some "h5-files"
     description := some "All HDF5 files containing images and masks"
     contentUrl := none
     encodingFormat := some "application/x-hdf5"
     includes := some "**/*.h5"
     containedIn := some "data_repo"
     sha256 := none }]

/-- One asset of a time-series STAC item (`geocr-timeseries.py`); only
`href` is read by the distribution builder. -/
structure TsAsset where
  href : Option String
  deriving DecidableEq, Repr

/-- One STAC item as read by `convert_items_to_geocroissant`: `id`,
`properties.datetime` and the assets dictionary (key order preserved). -/
structure TsItem where
  id : Option String
  datetime : Option String
  assets : List (String × TsAsset)
  deriving DecidableEq, Repr

/-- Lines 105-107: band names are the asset keys containing `B` (or
`B8A`) of the first item. -/
def tsBandNames (assets : List (String × TsAsset)) : List String :=
  (assets.map Prod.fst).filter fun k => containsSub k "B" || containsSub k "B8A"

/-- Python `s.rsplit(pat, 1)[0]`: the segment before the last occurrence
of `pat`, or the whole string when `pat` does not occur. -/
def rsplitBeforeAux : List Char → List Char → Option (List Char)
  | [], _ => none
  | c :: cs, pat =>
    match rsplitBeforeAux cs pat with
    | some seg => some (c :: seg)
    | none => if startsWithCharList (c :: cs) pat then some [] else none

/-- See `rsplitBeforeAux`. -/
def rsplitBefore (s pat : String) : String :=
  match rsplitBeforeAux s.data pat.data with
  | some seg => seg.asString
  | none => s

/-- Lines 239-255: the base URL of one item's FileSet — first band asset's
`href` with the SAS query stripped and the band-specific tail removed. -/
def tsBaseUrl (band_names : List String) (assets : List (String × TsAsset)) : String :=
  match band_names.head? with
  | some b0 =>
    match assets.lookup b0 with
    | some a =>
      let url0 := a.href.getD ""
      let url1 :=
        if containsSub url0 "?" then (url0.data.takeWhile fun c => c != '?').asString
        else url0
      if containsSub url1 ".B" then rsplitBefore url1 ".B" else rsplitBefore url1 "/"
    | none => ""
  | none => ""

/-- Lines 259-267: the FileSet literal appended for one item.  It has an
`includes` pattern and a `contentUrl`, but no `containedIn` key. -/
def tsFileSetEntry (idx : Nat) (item : TsItem) (base_url : String) : DistEntry :=
  let item_id := item.id.getD ("item_" ++ toString idx)
  let dt_str := item.datetime.getD ""
  { atType := "cr:FileSet"
    atId := some ("granule_" ++ toString idx ++ "_bands")
    name := some (item_id ++ "_spectral_bands")
    description := some ("13 spectral band GeoTIFF files for " ++ item_id ++ " (" ++
      dt_str ++ "). URLs require signing via Microsoft Planetary Computer.")
    contentUrl := some base_url
    encodingFormat := some "image/tiff"
    includes := some "*.tif"
    containedIn := none
    sha256 := none }

/-- The `distribution` array built by `convert_items_to_geocroissant`
(lines 73-74, 230-268): empty input returns the empty record, otherwise
one FileSet per item, indexed from 1. -/
def convertItemsDistribution (items_list : List TsItem) : List DistEntry :=
  match items_list with
  | [] => []
  | first :: _ =>
    let band_names := tsBandNames first.assets
    items_list.enum.map fun p =>
      tsFileSetEntry (p.1 + 1) p.2 (tsBaseUrl band_names p.2.assets)

/-- Modelled from the spec: the §3 distribution invariant that C9 states
(the repository has no validation code for it).  Every `cr:FileSet` entry
must carry a non-empty include pattern and a `containedIn` reference to
the `@id` of a `cr:FileObject` occurring earlier in the list. -/
def specWellFormedDistributionAux (seen : List String) : List DistEntry → Bool
  | [] => true
  | e :: rest =>
    if e.atType == "cr:FileSet" then
      (match e.includes with
       | some p => p != ""
       | none => false) &&
      (match e.containedIn with
       | some cid => seen.contains cid
       | none => false) &&
      specWellFormedDistributionAux seen rest
    else
      specWellFormedDistributionAux
        (if e.atType == "cr:FileObject" then
          match e.atId with
          | some i => seen ++ [i]
          | none => seen
        else seen) rest

/-- See `specWellFormedDistributionAux`. -/
def specWellFormedDistribution (d : List DistEntry) : Bool :=
  specWellFormedDistributionAux [] d


/-! ## Supporting lemmas -/

/-- Closing a non-empty ring makes its first and last pairs agree. -/
theorem closeRing_head_eq_last (coords : List (ℚ × ℚ)) (h : coords ≠ []) :
    (closeRing coords).head? = (closeRing coords).getLast? := by
  match coords, h with
  | c0 :: rest, _ =>
    cases hcl : (c0 :: rest).getLast? with
    | none => simp at hcl
    | some cl =>
      by_cases hec : c0 = cl
      · subst hec
        simp [closeRing, hcl]
      · have hfin : (c0 :: (rest ++ [c0])).getLast? = some c0 :=
          List.getLast?_concat (c0 :: rest)
        simp [closeRing, hcl, hec, hfin]

/-- The first character of an `EPSG:`-prefixed result. -/
theorem epsg_result_head (code : String) :
    ("EPSG:" ++ code).data.head? = some 'E' := by
  rw [strData_append]; rfl

/-- Every label of the projected-CRS branch starts with `C` or `U`. -/
theorem projectedLabel_head (s : String) :
    (projectedLabel s).data.head? = some 'C' ∨ (projectedLabel s).data.head? = some 'U' := by
  by_cases h1 : containsSub s "Albers"
  · left; simp [projectedLabel, h1]
  · by_cases h2 : containsSub s "UTM"
    · right
      cases hz : utmZoneScan s.data with
      | none => simp [projectedLabel, h1, h2, hz]
      | some run =>
        have hlab : projectedLabel s = "UTM Zone " ++ run.asString := by
          simp [projectedLabel, h1, h2, hz]
        rw [hlab, strData_append]; rfl
    · left; simp [projectedLabel, h1, h2]

/-! ## Claim theorems -/

/-- C1: normalizing a STAC bbox `[west, south, east, north]` to the
GeoCroissant GeoShape box `"south west north east"` and parsing that box
back re-creates the original four numbers in the original order, and the
canonical box (south 10, west 20, north 30, east 40) re-exports to the
STAC order as `[20, 10, 40, 30]`. -/
theorem c1_bbox_roundtrip :
    (∀ w s e n : ℚ,
      (stacBboxToGeoShapeBox [w, s, e, n]).bind geoShapeBoxToStacBbox = some [w, s, e, n])
    ∧ geoShapeBoxToStacBbox [10, 20, 30, 40] = some [20, 10, 40, 30] := by
  exact ⟨fun w s e n => rfl, by decide⟩

/-- C2 counterexample: the shape `(512, 13, 512)` has a strictly smallest
middle axis of size 13, yet the converter infers 1 band, not 13, so the
claim's "the axis whose size is strictly smaller than both other axes is
treated as the band axis" fails for the middle axis. -/
theorem c2_band_axis_counterexample :
    (13 : Nat) < 512 ∧ sdoNumBands [512, 13, 512] = 1 ∧ sdoNumBands [512, 13, 512] ≠ 13 := by
  decide

/-- C2 (amended): only the first and the last axis are tested — a strictly
smallest first axis gives its size as the band count, else a strictly
smallest last axis gives its size, and every other 3-dimensional shape
(including a strictly smallest middle axis) defaults to 1 band; the
scenario shapes behave as claimed and every 2-dimensional shape yields
exactly 1 band. -/
theorem c2_band_axis_amended :
    (∀ a b c : Nat, a < b → a < c → sdoNumBands [a, b, c] = a)
    ∧ (∀ a b c : Nat, ¬(a < b ∧ a < c) → c < a → c < b → sdoNumBands [a, b, c] = c)
    ∧ (∀ a b c : Nat, ¬(a < b ∧ a < c) → ¬(c < a ∧ c < b) → sdoNumBands [a, b, c] = 1)
    ∧ sdoNumBands [13, 512, 512] = 13
    ∧ sdoNumBands [512, 512, 13] = 13
    ∧ ∀ a b : Nat, sdoNumBands [a, b] = 1 := by
  refine ⟨?_, ?_, ?_, by decide, by decide, fun a b => rfl⟩
  · intro a b c h1 h2
    simp [sdoNumBands, h1, h2]
  · intro a b c h1 h2 h3
    simp [sdoNumBands, h1, h2, h3]
  · intro a b c h1 h2
    simp [sdoNumBands, h1, h2]

/-- C2 witness: the amended rule applied to the bands-first scenario. -/
theorem c2_band_axis_amended_witness : sdoNumBands [13, 512, 512] = 13 :=
  c2_band_axis_amended.1 13 512 512 (by decide) (by decide)

/-- C3 counterexample: the GEE converter's distribution entry is built
without any content hash, yet it carries neither a `sha256` nor an `md5`
key — the checksum key is silently omitted rather than set to the
sentinel. -/
theorem c3_checksum_counterexample :
    (geeDistribution geeAssetId).map (fun f => (f.sha256, f.md5)) = [(none, none)] := by
  decide

/-- C3 (amended): in the STAC converter a distribution entry whose source
asset provides no content hash always gets the explicit sentinel
`PLACEHOLDER-CHECKSUM-REQUIRED` under `sha256` plus exactly one warning;
the GEE converter, by contrast, omits the checksum key entirely. -/
theorem c3_checksum_amended :
    ∀ (key : String) (asset : StacAsset),
      asset.checksumMultihash = none → asset.fileChecksum = none →
      asset.checksumMd5 = none →
      (stacAssetToFileObject key asset).1.sha256 = some "PLACEHOLDER-CHECKSUM-REQUIRED"
      ∧ (stacAssetToFileObject key asset).2 = [WarningCondition.missingChecksum key] := by
  intro key asset h1 h2 h3
  simp [stacAssetToFileObject, h1, h2, h3]

/-- C3 witness: a checksum-less asset receives the sentinel and one
warning. -/
theorem c3_checksum_amended_witness :
    (stacAssetToFileObject "B01"
        ⟨some "u", none, none, none, none, none, none, none⟩).1.sha256
      = some "PLACEHOLDER-CHECKSUM-REQUIRED"
    ∧ (stacAssetToFileObject "B01"
        ⟨some "u", none, none, none, none, none, none, none⟩).2
      = [WarningCondition.missingChecksum "B01"] :=
  c3_checksum_amended "B01" ⟨some "u", none, none, none, none, none, none, none⟩ rfl rfl rfl

/-- C4 counterexample: an item whose `start_datetime` is chronologically
after its `end_datetime` is exported as the start/end range verbatim with
an empty warning list — the interval is neither rejected nor warned
about. -/
theorem c4_temporal_counterexample :
    isoBefore "2020-01-01T00:00:00Z" "2021-01-01T00:00:00Z" = true
    ∧ itemTemporalCoverage (some "2021-01-01T00:00:00Z") (some "2020-01-01T00:00:00Z") none
      = (some (StacTemporalCoverage.range "2021-01-01T00:00:00Z" "2020-01-01T00:00:00Z"),
         []) := by
  decide

/-- C4 (amended): the temporal section performs no ordering validation at
all — whenever both bounds are non-empty (including start after end) it
emits the start/end range verbatim and reports no warning. -/
theorem c4_temporal_amended :
    ∀ (s e : String) (d : Option String), s ≠ "" → e ≠ "" →
      itemTemporalCoverage (some s) (some e) d
        = (some (StacTemporalCoverage.range s e), []) := by
  intro s e d hs he
  simp [itemTemporalCoverage, isTruthy, hs, he]

/-- C4 witness: a backwards range passes through unchanged. -/
theorem c4_temporal_amended_witness :
    itemTemporalCoverage (some "2022-05-01T00:00:00Z") (some "2019-05-01T00:00:00Z") none
      = (some (StacTemporalCoverage.range "2022-05-01T00:00:00Z" "2019-05-01T00:00:00Z"),
         []) :=
  c4_temporal_amended "2022-05-01T00:00:00Z" "2019-05-01T00:00:00Z" none
    (by decide) (by decide)

/-- C6 counterexample: for a collection without `sci:citation` the emitted
`citeAs` embeds `datetime.utcnow().year` and, without a temporal start,
`datePublished` embeds the run date — two runs of the same input in
different years produce different payloads. -/
theorem c6_determinism_counterexample :
    stacCollectionCiteAs ⟨some "ds1", some "My DS", none, none⟩ ⟨2024, "2024-06-01"⟩
      ≠ stacCollectionCiteAs ⟨some "ds1", some "My DS", none, none⟩ ⟨2025, "2025-06-01"⟩
    ∧ stacCollectionDatePublished ⟨some "ds1", some "My DS", none, none⟩ ⟨2024, "2024-06-01"⟩
      ≠ stacCollectionDatePublished ⟨some "ds1", some "My DS", none, none⟩
          ⟨2025, "2025-06-01"⟩ := by
  decide

/-- C6 (amended): the exporter is a function of the document and the run
clock, and its clock dependence is confined to two documented fallbacks:
with `sci:citation` present the emitted `citeAs` is identical across runs,
and with a non-empty temporal start present the emitted `datePublished`
is identical across runs. -/
theorem c6_determinism_amended :
    ∀ (doc : StacCollectionDoc) (k1 k2 : RunClock),
      (doc.sciCitation.isSome = true →
        stacCollectionCiteAs doc k1 = stacCollectionCiteAs doc k2)
      ∧ ∀ (s : String) (r : Option String),
          doc.temporalInterval = some (some s, r) → s ≠ "" →
          stacCollectionDatePublished doc k1 = stacCollectionDatePublished doc k2 := by
  intro doc k1 k2
  constructor
  · intro h
    cases hc : doc.sciCitation with
    | none => rw [hc] at h; simp at h
    | some c => simp [stacCollectionCiteAs, hc]
  · intro s r hti hs
    simp [stacCollectionDatePublished, hti, isTruthy, hs]

/-- C6 witness: with a citation and a temporal start present, two runs in
different years agree. -/
theorem c6_determinism_amended_witness :
    stacCollectionCiteAs ⟨some "d", some "t", some "CITED", some (some "2020-01-01", none)⟩
        ⟨2024, "x"⟩
      = stacCollectionCiteAs ⟨some "d", some "t", some "CITED", some (some "2020-01-01", none)⟩
          ⟨2025, "y"⟩
    ∧ stacCollectionDatePublished
        ⟨some "d", some "t", some "CITED", some (some "2020-01-01", none)⟩ ⟨2024, "x"⟩
      = stacCollectionDatePublished
          ⟨some "d", some "t", some "CITED", some (some "2020-01-01", none)⟩ ⟨2025, "y"⟩ :=
  ⟨(c6_determinism_amended ⟨some "d", some "t", some "CITED",
      some (some "2020-01-01", none)⟩ ⟨2024, "x"⟩ ⟨2025, "y"⟩).1 rfl,
   (c6_determinism_amended ⟨some "d", some "t", some "CITED",
      some (some "2020-01-01", none)⟩ ⟨2024, "x"⟩ ⟨2025, "y"⟩).2 "2020-01-01" none rfl
     (by decide)⟩

/-- C5 counterexample: two source bands both named `B1` are emitted as
`["B1", "B1"]` — no deterministic `_2` suffix is appended to the later
one, contrary to the claim's required `["B1", "B1_2"]`. -/
theorem c5_band_dedup_counterexample :
    stacBandNamesList [⟨some "B1"⟩, ⟨some "B1"⟩] = ["B1", "B1"]
    ∧ stacBandNamesList [⟨some "B1"⟩, ⟨some "B1"⟩] ≠ ["B1", "B1_2"] := by
  decide

/-- C5 (amended): colliding band names are kept verbatim in insertion
order — no band is ever dropped or overwritten (the name list always has
one entry per source band), but no numeric suffix is appended, so two
bands named `B1` yield `["B1", "B1"]`. -/
theorem c5_band_dedup_amended :
    (∀ bands : List StacBandInfo, (stacBandNamesList bands).length = bands.length)
    ∧ stacBandNamesList [⟨some "B1"⟩, ⟨some "B1"⟩] = ["B1", "B1"] := by
  refine ⟨fun bands => ?_, by decide⟩
  simp [stacBandNamesList]

/-- C7 counterexample: a WKT string that contains both a projected-CRS
keyword and a valid, non-deny-listed EPSG authority pair returns the UTM
label, not the EPSG code — so the authority/code pair does not take
precedence as claimed. -/
theorem c7_crs_precedence_counterexample :
    extract_crs_from_wkt2
        "PROJCS[\"WGS 84 / UTM zone 10N\",AUTHORITY[\"EPSG\",\"32610\"]]"
      = some "UTM Zone 10"
    ∧ epsgAuthorityCode
        "PROJCS[\"WGS 84 / UTM zone 10N\",AUTHORITY[\"EPSG\",\"32610\"]]"
      = some "32610"
    ∧ extract_crs_from_wkt2
        "PROJCS[\"WGS 84 / UTM zone 10N\",AUTHORITY[\"EPSG\",\"32610\"]]"
      ≠ some "EPSG:32610" := by
  decide

/-- C7 (amended): the precedence is reversed — named projection keywords
are tried first, and whenever `PROJCS`/`PROJECTION` occurs the result is
a projection label and never an `EPSG:` code, even if an authority pair
is present; only without those keywords is the authority code consulted,
returned as `EPSG:code` unless it is on the deny-list {9122, 9001}, and
the result is absent otherwise. -/
theorem c7_crs_precedence_amended :
    (∀ s : String, hasProjKeyword s = true →
      ∀ code : String, extract_crs_from_wkt2 s ≠ some ("EPSG:" ++ code))
    ∧ (∀ s c : String, hasProjKeyword s = false → epsgAuthorityCode s = some c →
        c ≠ "9122" → c ≠ "9001" → extract_crs_from_wkt2 s = some ("EPSG:" ++ c))
    ∧ (∀ s : String, hasProjKeyword s = false → epsgAuthorityCode s = none →
        extract_crs_from_wkt2 s = none)
    ∧ (∀ s : String, hasProjKeyword s = false →
        (epsgAuthorityCode s = some "9122" ∨ epsgAuthorityCode s = some "9001") →
        extract_crs_from_wkt2 s = none) := by
  have hemp : epsgAuthorityCode "" = none := rfl
  refine ⟨?_, ?_, ?_, ?_⟩
  · intro s hp code heq
    have hs : s ≠ "" := by
      intro h0
      rw [h0] at hp
      exact absurd hp (by decide)
    rw [extract_crs_from_wkt2, if_neg hs, if_pos hp] at heq
    have h3 := Option.some.inj heq
    have h4 := congrArg (fun t : String => t.data.head?) h3
    simp only at h4
    rcases projectedLabel_head s with h5 | h5 <;>
      rw [h5, epsg_result_head] at h4 <;> exact absurd h4 (by decide)
  · intro s c hp hcode hne1 hne2
    have hs : s ≠ "" := by
      intro h0
      rw [h0, hemp] at hcode
      exact Option.noConfusion hcode
    rw [extract_crs_from_wkt2, if_neg hs, if_neg (by simp [hp])]
    simp [epsgBranch, hcode, hne1, hne2]
  · intro s hp hcode
    by_cases hs : s = ""
    · rw [extract_crs_from_wkt2, if_pos hs]
    · rw [extract_crs_from_wkt2, if_neg hs, if_neg (by simp [hp])]
      simp [epsgBranch, hcode]
  · intro s hp hcode
    have hs : s ≠ "" := by
      intro h0
      rw [h0, hemp] at hcode
      rcases hcode with h | h <;> exact Option.noConfusion h
    rw [extract_crs_from_wkt2, if_neg hs, if_neg (by simp [hp])]
    rcases hcode with h | h <;> simp [epsgBranch, h]

/-- C7 witness: without projection keywords, a non-deny-listed authority
code is returned as `EPSG:code`. -/
theorem c7_crs_precedence_amended_witness :
    extract_crs_from_wkt2 "GEOGCS[\"x\",AUTHORITY[\"EPSG\",\"4326\"]]" = some "EPSG:4326" :=
  c7_crs_precedence_amended.2.1 "GEOGCS[\"x\",AUTHORITY[\"EPSG\",\"4326\"]]" "4326"
    (by decide) (by decide) (by decide) (by decide)

/-- C8 counterexample: the fixed tables differ from the claimed ones — a
`.nc` URL gets `application/netcdf` (not `application/x-netcdf`) from the
CEDA converter, and a `.h5` URL gets `application/x-hdf` (not
`application/x-hdf5`) from the NASA-UMM converter. -/
theorem c8_encoding_counterexample :
    cedaEncodingFormat "f.nc" = "application/netcdf"
    ∧ cedaEncodingFormat "f.nc" ≠ "application/x-netcdf"
    ∧ determine_encoding_format "f.h5" "" "" = "application/x-hdf"
    ∧ determine_encoding_format "f.h5" "" "" ≠ "application/x-hdf5" := by
  decide

/-- C8 (amended): the CEDA table maps json→application/json,
nc/netcdf→application/netcdf, zarr→application/zarr; the NASA-UMM table
maps tif/tiff→image/tiff, jpg/jpeg→image/jpeg, json→application/json,
xml→application/xml, hdf/h5→application/x-hdf, nc→application/x-netcdf;
and in both converters every unmatched URL falls back to the generic
`application/octet-stream`, never to a guessed specific format. -/
theorem c8_encoding_amended :
    (∀ url : String,
      strEndsWith url ".json" = false → strEndsWith url ".nc" = false →
      strEndsWith url ".netcdf" = false → strEndsWith url ".zarr" = false →
      cedaEncodingFormat url = "application/octet-stream")
    ∧ cedaEncodingFormat "a.json" = "application/json"
    ∧ cedaEncodingFormat "a.nc" = "application/netcdf"
    ∧ cedaEncodingFormat "a.netcdf" = "application/netcdf"
    ∧ cedaEncodingFormat "a.zarr" = "application/zarr"
    ∧ (∀ url t st : String,
        strEndsWith url ".tif" = false → strEndsWith url ".tiff" = false →
        strEndsWith url ".jpg" = false → strEndsWith url ".jpeg" = false →
        strEndsWith url ".json" = false → strEndsWith url ".xml" = false →
        strEndsWith url ".hdf" = false → strEndsWith url ".h5" = false →
        strEndsWith url ".nc" = false →
        determine_encoding_format url t st = "application/octet-stream")
    ∧ determine_encoding_format "a.tif" "" "" = "image/tiff"
    ∧ determine_encoding_format "a.tiff" "" "" = "image/tiff"
    ∧ determine_encoding_format "a.jpg" "" "" = "image/jpeg"
    ∧ determine_encoding_format "a.jpeg" "" "" = "image/jpeg"
    ∧ determine_encoding_format "a.json" "" "" = "application/json"
    ∧ determine_encoding_format "a.xml" "" "" = "application/xml"
    ∧ determine_encoding_format "a.hdf" "" "" = "application/x-hdf"
    ∧ determine_encoding_format "a.h5" "" "" = "application/x-hdf"
    ∧ determine_encoding_format "a.nc" "" "" = "application/x-netcdf" := by
  refine ⟨?_, by decide, by decide, by decide, by decide, ?_, by decide, by decide,
    by decide, by decide, by decide, by decide, by decide, by decide, by decide⟩
  · intro url h1 h2 h3 h4
    simp [cedaEncodingFormat, h1, h2, h3, h4]
  · intro url t st h1 h2 h3 h4 h5 h6 h7 h8 h9
    simp [determine_encoding_format, h1, h2, h3, h4, h5, h6, h7, h8, h9, ite_self]

/-- C8 witness: an unknown extension falls back to the generic binary
format in both converters. -/
theorem c8_encoding_amended_witness :
    cedaEncodingFormat "file.bin" = "application/octet-stream"
    ∧ determine_encoding_format "file.bin" "" "" = "application/octet-stream" :=
  ⟨c8_encoding_amended.1 "file.bin" (by decide) (by decide) (by decide) (by decide),
   c8_encoding_amended.2.2.2.2.2.1 "file.bin" "" "" (by decide) (by decide) (by decide)
     (by decide) (by decide) (by decide) (by decide) (by decide) (by decide)⟩

/-- C9 counterexample: the time-series converter emits a distribution
whose only entry is a `cr:FileSet` without any `containedIn` key and with
no `cr:FileObject` before it, and no validation rejects it — so the
invariant that every FileSet references a previously declared FileObject
fails on produced records. -/
theorem c9_fileset_counterexample :
    (convertItemsDistribution [⟨some "it1", some "2025-01-15T00:00:00+00:00", []⟩]).map
        (fun e => (e.atType, e.containedIn)) = [("cr:FileSet", none)]
    ∧ specWellFormedDistribution
        (convertItemsDistribution [⟨some "it1", some "2025-01-15T00:00:00+00:00", []⟩])
      = false := by
  decide

/-- C9 (amended): the hand-written HDF5 record's distribution does satisfy
the invariant (its FileSet has the non-empty pattern `**/*.h5` and
references the earlier FileObject `data_repo`), and every FileSet the
time-series converter produces carries the non-empty include pattern
`*.tif` but no `containedIn` reference at all; no construction-time
validation exists. -/
theorem c9_fileset_amended :
    specWellFormedDistribution l4sDistribution = true
    ∧ ∀ items_list : List TsItem,
        (convertItemsDistribution items_list).all
          (fun e => e.atType == "cr:FileSet" && e.includes == some "*.tif"
            && e.containedIn == none) = true := by
  refine ⟨by decide, fun items_list => ?_⟩
  cases items_list with
  | nil => rfl
  | cons first rest =>
    rw [List.all_eq_true]
    intro e he
    simp only [convertItemsDistribution, List.mem_map] at he
    obtain ⟨p, hp, rfl⟩ := he
    rfl

/-- C10: every WKT polygon ring emitted from a non-empty point list is
closed (its first coordinate pair equals its last), and the
bounding-box-derived GeoDCAT polygon repeats its first corner. -/
theorem c10_polygon_rings_closed :
    (∀ points : List (Option ℚ × Option ℚ), points ≠ [] →
      (convert_polygon_to_wkt points).head? = (convert_polygon_to_wkt points).getLast?)
    ∧ ∀ s w n e : ℚ,
        (geodcatBboxRing s w n e).head? = (geodcatBboxRing s w n e).getLast? := by
  constructor
  · intro points hp
    have hmap : points.map (fun p => (p.1.getD 0, p.2.getD 0)) ≠ [] := by
      simpa using hp
    exact closeRing_head_eq_last _ hmap
  · intro s w n e
    rfl

/-- C10 witness: a concrete open two-point ring is closed by the
converter. -/
theorem c10_polygon_rings_closed_witness :
    (convert_polygon_to_wkt [(some 1, some 2), (some 3, some 4)]).head?
      = (convert_polygon_to_wkt [(some 1, some 2), (some 3, some 4)]).getLast? :=
  c10_polygon_rings_closed.1 [(some 1, some 2), (some 3, some 4)] (by decide)
